import Mathlib

/-!
Shallow embedding of the computational core of the EUDR deforestation API
(`src/services/deforestation_analyzer.py`).  Coordinates are (longitude,
latitude) pairs of real numbers; Python floats are modelled as reals,
`random.uniform` draws as explicit real parameters, and the raising of a
`ZeroDivisionError` on an empty vertex list as an `Option` result.
-/

namespace EUDR

/-- A vertex: (longitude, latitude) in decimal degrees, as in the Python
`coordinates: List[List[float]]` where `coord[0]` is longitude, `coord[1]`
latitude. -/
abbrev Coord := ℝ × ℝ

/-! ### Geometry module: `_calculate_area` -/

/-- The inner `deg_to_meters` conversion of `_calculate_area`:
`lat_m = lat_deg * 111320`, `lon_m = lon_deg * 111320 * cos(radians(lat_deg))`.
Takes a coordinate pair (lon, lat) and returns `(lat_m, lon_m)`. -/
noncomputable def degToMeters (c : Coord) : ℝ × ℝ :=
  (c.2 * 111320, c.1 * 111320 * Real.cos (c.2 * Real.pi / 180))

/-- One shoelace summand: `lat1 * lon2 - lat2 * lon1`. -/
def shoelaceTerm (p q : ℝ × ℝ) : ℝ :=
  p.1 * q.2 - q.1 * p.2

/-- The shoelace accumulation loop of `_calculate_area`:
`for i in range(n): j = (i+1) % n; area += lat1*lon2 - lat2*lon1`. -/
noncomputable def shoelaceSum (cs : List Coord) : ℝ :=
  (List.range cs.length).foldl
    (fun acc i =>
      acc + shoelaceTerm (degToMeters (cs.getD i (0, 0)))
        (degToMeters (cs.getD ((i + 1) % cs.length) (0, 0)))) 0

/-- `_calculate_area`: returns 0 for fewer than 3 vertices; otherwise the
absolute shoelace area in square meters, divided by 10000 for hectares,
floored at 1.0. -/
noncomputable def calculate_area (cs : List Coord) : ℝ :=
  if cs.length < 3 then 0
  else max (|shoelaceSum cs| / 2 / 10000) 1.0

/-! ### Risk classifier: `_get_location_risk_factor` -/

/-- The bounding-box cascade of `_get_location_risk_factor`, applied to the
already-computed centre latitude and longitude. -/
noncomputable def riskFromCenter (lat lon : ℝ) : ℝ :=
  if -10 ≤ lat ∧ lat ≤ 10 ∧ -80 ≤ lon ∧ lon ≤ -40 then 0.8
  else if -10 ≤ lat ∧ lat ≤ 10 ∧ 10 ≤ lon ∧ lon ≤ 35 then 0.7
  else if -10 ≤ lat ∧ lat ≤ 20 ∧ 90 ≤ lon ∧ lon ≤ 150 then 0.6
  else if 35 ≤ lat ∧ lat ≤ 70 ∧ -10 ≤ lon ∧ lon ≤ 50 then 0.2
  else 0.4

/-- Mean latitude of the vertices (`center_lat`). -/
noncomputable def centerLat (cs : List Coord) : ℝ :=
  (cs.map Prod.snd).sum / cs.length

/-- Mean longitude of the vertices (`center_lon`). -/
noncomputable def centerLon (cs : List Coord) : ℝ :=
  (cs.map Prod.fst).sum / cs.length

/-- `_get_location_risk_factor`: the centroid of the vertices, classified by
the bounding-box cascade.  On the empty list the Python code divides by
`len(coordinates) = 0` and raises `ZeroDivisionError`; this is modelled as
`none`. -/
noncomputable def get_location_risk_factor (cs : List Coord) : Option ℝ :=
  if cs.length = 0 then none
  else some (riskFromCenter (centerLat cs) (centerLon cs))

/-! ### Time-span utility: `_calculate_time_span` -/

/-- Gregorian leap-year test, as in Python's `calendar`/`datetime`. -/
def isLeapYear (y : Nat) : Bool :=
  (y % 4 == 0 && y % 100 != 0) || y % 400 == 0

/-- Number of days in a month of a given year. -/
def daysInMonth (y m : Nat) : Nat :=
  if m = 2 then (if isLeapYear y then 29 else 28)
  else if m = 4 ∨ m = 6 ∨ m = 9 ∨ m = 11 then 30
  else 31

/-- Days in all years before year `y` of the proleptic Gregorian calendar
(year 1 is the first year, as in Python's `datetime.date.toordinal`). -/
def daysBeforeYear (y : Nat) : Nat :=
  (y - 1) * 365 + (y - 1) / 4 - (y - 1) / 100 + (y - 1) / 400

/-- Days in the months of year `y` strictly before month `m`. -/
def daysBeforeMonth (y m : Nat) : Nat :=
  ((List.range (m - 1)).map (fun k => daysInMonth y (k + 1))).sum

/-- Proleptic-Gregorian ordinal of a date, with January 1 of year 1 as
day 1 — the same convention as Python's `datetime.date.toordinal`. -/
def toOrdinal (y m d : Nat) : Nat :=
  daysBeforeYear y + daysBeforeMonth y m + d

/-- Splits a character list on the hyphen character, the way Python's
`str.split("-")` (and the literal `-` of the `strptime` format) cuts the
date string into its three fields. -/
def splitOnDash (cs : List Char) : List (List Char) :=
  match cs with
  | [] => [[]]
  | c :: rest =>
    let r := splitOnDash rest
    if c = '-' then [] :: r
    else
      match r with
      | [] => [[c]]
      | h :: t => (c :: h) :: t

/-- The numeric value of a nonempty all-digit character group; `none` when
the group is empty or holds a non-digit, as the `strptime` regex then
fails to match. -/
def digitsVal (cs : List Char) : Option Nat :=
  if cs ≠ [] ∧ cs.all Char.isDigit then
    some (cs.foldl (fun a c => a * 10 + (c.toNat - 48)) 0)
  else none

/-- The `datetime.strptime(s, "%Y-%m-%d")` parse: exactly four digits for
the year, one or two digits for month and day, separated by literal
hyphens, with the month in 1..12, the day within the month, and the year
at least 1 (`datetime.MINYEAR`).  Returns `none` exactly when the Python
call raises. -/
def parseDate (s : String) : Option (Nat × Nat × Nat) :=
  match splitOnDash s.data with
  | [ys, ms, ds] =>
    match digitsVal ys, digitsVal ms, digitsVal ds with
    | some y, some mo, some da =>
      if ys.length = 4 ∧ ms.length ≤ 2 ∧ ds.length ≤ 2 ∧
          1 ≤ y ∧ 1 ≤ mo ∧ mo ≤ 12 ∧ 1 ≤ da ∧ da ≤ daysInMonth y mo then
        some (y, mo, da)
      else none
    | _, _, _ => none
  | _ => none

/-- `_calculate_time_span`: parse both dates as `%Y-%m-%d` and return
`(end - start).days`; on any parse failure return the fallback 365. -/
def calculate_time_span (start_date end_date : String) : ℤ :=
  match parseDate start_date, parseDate end_date with
  | some (y1, m1, d1), some (y2, m2, d2) =>
      (toOrdinal y2 m2 d2 : ℤ) - (toOrdinal y1 m1 d1 : ℤ)
  | _, _ => 365


/-! ### Change/report composer: `analyze_change` and `full_analysis` -/

/-- The two fields of a satellite-image descriptor that `analyze_change`
reads: `image['date']` and `image.get('cloud_coverage', 0)`. -/
structure Image where
  date : String
  cloud_coverage : ℝ

/-- The outcomes of the random draws inside `analyze_change`:
`lossFrac` for `random.uniform(0.1, 0.4)`, `ndviLoss` for
`random.uniform(0.2, 0.4)` and `ndviNoLoss` for `random.uniform(-0.1, 0.1)`. -/
structure Draws where
  lossFrac : ℝ
  ndviLoss : ℝ
  ndviNoLoss : ℝ

/-- The dictionary returned by `analyze_change`, with the nested
`detailed_report` entries flattened into fields. -/
structure ChangeResult where
  deforestation_detected : Bool
  confidence_score : ℝ
  area_analyzed : ℝ
  forest_loss_area : ℝ
  change_percentage : ℝ
  ndvi_change : ℝ
  vegetation_loss : Bool
  analysis_method : String
  historical_period : String
  current_period : String
  time_span_days : ℤ
  area_size : ℝ
  geographic_risk : ℝ
  cloud_coverage_impact : ℝ

/-- `analyze_change`: area and risk factors are combined into a clamped
detection probability; the draw outcomes fill the simulated fields.  The
`ZeroDivisionError` of the risk factor on an empty vertex list propagates
(the Python `except` clause logs and re-raises), hence the `Option`. -/
noncomputable def analyze_change (historical_image current_image : Image)
    (coordinates : List Coord) (d : Draws) : Option ChangeResult :=
  (get_location_risk_factor coordinates).map (fun location_factor =>
    let area_hectares := calculate_area coordinates
    let area_factor := min (area_hectares / 100) 1.0
    let p := min (max (0.3 * (area_factor + location_factor) / 2) 0.1) 0.9
    let detected : Bool := decide (p > 0.5)
    let forest_loss_area : ℝ := if detected then area_hectares * d.lossFrac else 0
    { deforestation_detected := detected
      confidence_score := p
      area_analyzed := area_hectares
      forest_loss_area := forest_loss_area
      change_percentage :=
        if area_hectares > 0 then forest_loss_area / area_hectares * 100 else 0
      ndvi_change := if detected then -d.ndviLoss else d.ndviNoLoss
      vegetation_loss := detected
      analysis_method := "NDVI comparison with ML enhancement"
      historical_period := historical_image.date
      current_period := current_image.date
      time_span_days :=
        calculate_time_span historical_image.date current_image.date
      area_size := area_factor
      geographic_risk := location_factor
      cloud_coverage_impact :=
        max historical_image.cloud_coverage current_image.cloud_coverage / 100 })

/-- The outcomes of the random draws inside `full_analysis`:
`choice` for `random.choice([True, False])`, `lossFrac` for
`random.uniform(0, 0.3)`, and one field per simulated metric draw. -/
structure FullDraws where
  choice : Bool
  lossFrac : ℝ
  currentNdvi : ℝ
  historicalNdvi : ℝ
  ndviChange : ℝ
  evi : ℝ
  forestPct : ℝ
  agriculturalPct : ℝ
  otherPct : ℝ
  waterPct : ℝ

/-- The dictionary returned by `full_analysis`, with the nested
`detailed_metrics` entries flattened into fields. -/
structure FullReport where
  area_analyzed : ℝ
  forest_loss_detected : Bool
  forest_loss_area : ℝ
  change_percentage : ℝ
  analysis_confidence : ℝ
  recommendations : List String
  current_ndvi : ℝ
  historical_ndvi : ℝ
  ndvi_change : ℝ
  evi : ℝ
  forest_percentage : ℝ
  agricultural_percentage : ℝ
  other_percentage : ℝ
  water_percentage : ℝ
  deforestation_risk : String
  geographic_complexity : ℝ
  monitoring_priority : String

/-- The high-frequency satellite-monitoring recommendation appended when
the analyzed area exceeds 100 hectares. -/
def highFreqRec : String := "🛰️ Surveillance satellite haute fréquence recommandée"

/-- The four fixed recommendations of the loss-detected branch. -/
def lossRecs : List String :=
  ["🚨 Vérification terrain immédiate recommandée",
   "📋 Conformité EUDR à risque - documentation requise",
   "🤝 Contact urgent avec les fournisseurs concernés",
   "📊 Audit complémentaire de la chaîne d\x27approvisionnement"]

/-- The three fixed recommendations of the no-loss branch. -/
def clearRecs : List String :=
  ["✅ Zone conforme aux exigences EUDR actuelles",
   "📈 Surveillance continue recommandée (monitoring trimestriel)",
   "📋 Documentation à jour et conforme"]

/-- `full_analysis`: loss is a coin flip gated on `location_risk > 0.5`;
confidence is the mean of three factors; recommendations depend on the
branch and the area.  As with `analyze_change`, the empty-list
`ZeroDivisionError` is `none`. -/
noncomputable def full_analysis (coordinates : List Coord) (d : FullDraws) :
    Option FullReport :=
  (get_location_risk_factor coordinates).map (fun location_risk =>
    let area_hectares := calculate_area coordinates
    let forest_loss_detected : Bool :=
      if location_risk > 0.5 then d.choice else false
    let forest_loss_area : ℝ :=
      if forest_loss_detected then area_hectares * d.lossFrac else 0
    { area_analyzed := area_hectares
      forest_loss_detected := forest_loss_detected
      forest_loss_area := forest_loss_area
      change_percentage :=
        if area_hectares > 0 then forest_loss_area / area_hectares * 100 else 0
      analysis_confidence :=
        ((if area_hectares > 10 then 0.9 else 0.7) + 0.95
          + (0.9 - location_risk * 0.2)) / 3
      recommendations :=
        (if forest_loss_detected then lossRecs else clearRecs)
          ++ (if area_hectares > 100 then [highFreqRec] else [])
      current_ndvi := d.currentNdvi
      historical_ndvi := d.historicalNdvi
      ndvi_change := d.ndviChange
      evi := d.evi
      forest_percentage := d.forestPct
      agricultural_percentage := d.agriculturalPct
      other_percentage := d.otherPct
      water_percentage := d.waterPct
      deforestation_risk :=
        if location_risk > 0.7 then "HIGH"
        else if location_risk > 0.4 then "MEDIUM" else "LOW"
      geographic_complexity := location_risk
      monitoring_priority :=
        if forest_loss_detected then "URGENT" else "STANDARD" })

/-! ### Concrete fixtures used by witnesses and counterexamples -/

/-- A single-vertex coordinate list (fewer than 3 vertices). -/
noncomputable def soloCoord : List Coord := [(0, 0)]

/-- A small triangle near the origin. -/
noncomputable def triCoord : List Coord := [(0, 0), (0, 0.01), (0.01, 0)]

/-- The spec's concrete square: (lon, lat) vertices
(0,0), (0,0.01), (0.01,0.01), (0.01,0). -/
noncomputable def squareCoord : List Coord :=
  [(0, 0), (0, 0.01), (0.01, 0.01), (0.01, 0)]

/-- A concrete historical image descriptor. -/
noncomputable def img0 : Image := ⟨"2023-01-01", 0⟩

/-- A concrete current image descriptor. -/
noncomputable def img1 : Image := ⟨"2023-06-01", 10⟩

/-- Concrete outcomes for the draws of `analyze_change`. -/
noncomputable def draws0 : Draws := ⟨0.2, 0.3, 0.05⟩

/-- Concrete outcomes for the draws of `full_analysis`, with the coin flip
landing on `true`. -/
noncomputable def fullDraws0 : FullDraws :=
  ⟨true, 0.2, 0.5, 0.6, -0.1, 0.4, 70, 15, 10, 2⟩

/-! ### Helper lemmas -/

/-- The bounding-box cascade only ever returns one of the five fixed
factors. -/
lemma riskFromCenter_cases (lat lon : ℝ) :
    riskFromCenter lat lon = 0.8 ∨ riskFromCenter lat lon = 0.7 ∨
    riskFromCenter lat lon = 0.6 ∨ riskFromCenter lat lon = 0.2 ∨
    riskFromCenter lat lon = 0.4 := by
  unfold riskFromCenter
  split_ifs
  · exact Or.inl rfl
  · exact Or.inr (Or.inl rfl)
  · exact Or.inr (Or.inr (Or.inl rfl))
  · exact Or.inr (Or.inr (Or.inr (Or.inl rfl)))
  · exact Or.inr (Or.inr (Or.inr (Or.inr rfl)))

/-- Every risk factor is at most 0.8. -/
lemma riskFromCenter_le (lat lon : ℝ) : riskFromCenter lat lon ≤ 0.8 := by
  rcases riskFromCenter_cases lat lon with h | h | h | h | h <;> rw [h] <;> norm_num

/-- Every risk factor is at least 0.2. -/
lemma riskFromCenter_ge (lat lon : ℝ) : 0.2 ≤ riskFromCenter lat lon := by
  rcases riskFromCenter_cases lat lon with h | h | h | h | h <;> rw [h] <;> norm_num

/-- On a nonempty vertex list the risk factor is the classified centroid. -/
lemma get_location_risk_factor_eq (cs : List Coord) (h : cs ≠ []) :
    get_location_risk_factor cs =
      some (riskFromCenter (centerLat cs) (centerLon cs)) := by
  unfold get_location_risk_factor
  rw [if_neg (by simpa using h)]

/-- The clamped detection probability never exceeds 0.27 when the risk
factor is at most 0.8. -/
lemma prob_le_027 (area rf : ℝ) (hrf : rf ≤ 0.8) :
    min (max (0.3 * (min (area / 100) 1.0 + rf) / 2) 0.1) 0.9 ≤ 0.27 := by
  have h1 : min (area / 100) 1.0 ≤ 1.0 := min_le_right _ _
  have h2 : 0.3 * (min (area / 100) 1.0 + rf) / 2 ≤ 0.27 := by nlinarith
  calc min (max (0.3 * (min (area / 100) 1.0 + rf) / 2) 0.1) 0.9
      ≤ max (0.3 * (min (area / 100) 1.0 + rf) / 2) 0.1 := min_le_left _ _
    _ ≤ 0.27 := max_le h2 (by norm_num)

/-- For fewer than 3 vertices the area is 0. -/
lemma calculate_area_lt3 (cs : List Coord) (h : cs.length < 3) :
    calculate_area cs = 0 := by
  unfold calculate_area
  rw [if_pos h]

/-- For 3 or more vertices the area is at least the floor 1. -/
lemma one_le_calculate_area (cs : List Coord) (h : 3 ≤ cs.length) :
    1 ≤ calculate_area cs := by
  unfold calculate_area
  rw [if_neg (by omega)]
  have := le_max_right (|shoelaceSum cs| / 2 / 10000) (1.0 : ℝ)
  linarith

/-- On any nonempty vertex list, `analyze_change` fully evaluates: the
clamped probability is at most 0.27, hence below the 0.5 threshold, so
detection is false and the loss fields are 0. -/
lemma analyze_change_fields (hist curr : Image) (cs : List Coord) (d : Draws)
    (hne : cs ≠ []) :
    analyze_change hist curr cs d = some
      { deforestation_detected := false
        confidence_score :=
          min (max (0.3 * (min (calculate_area cs / 100) 1.0 +
            riskFromCenter (centerLat cs) (centerLon cs)) / 2) 0.1) 0.9
        area_analyzed := calculate_area cs
        forest_loss_area := 0
        change_percentage := 0
        ndvi_change := d.ndviNoLoss
        vegetation_loss := false
        analysis_method := "NDVI comparison with ML enhancement"
        historical_period := hist.date
        current_period := curr.date
        time_span_days := calculate_time_span hist.date curr.date
        area_size := min (calculate_area cs / 100) 1.0
        geographic_risk := riskFromCenter (centerLat cs) (centerLon cs)
        cloud_coverage_impact :=
          max hist.cloud_coverage curr.cloud_coverage / 100 } := by
  rw [analyze_change, get_location_risk_factor_eq cs hne, Option.map_some']
  have hdet : ¬ (min (max (0.3 * (min (calculate_area cs / 100) 1.0 +
      riskFromCenter (centerLat cs) (centerLon cs)) / 2) 0.1) 0.9 > 0.5) := by
    have hb := prob_le_027 (calculate_area cs)
      (riskFromCenter (centerLat cs) (centerLon cs))
      (riskFromCenter_le (centerLat cs) (centerLon cs))
    intro hgt
    linarith
  have hb : (decide (min (max (0.3 * (min (calculate_area cs / 100) 1.0 +
      riskFromCenter (centerLat cs) (centerLon cs)) / 2) 0.1) 0.9 > 0.5)) = false :=
    decide_eq_false hdet
  simp only []
  rw [hb]
  simp

/-! ### Claims -/

/-- C2: `_calculate_area` returns 0 for fewer than 3 vertices, and a value
at least 1.0 (the enforced floor) for 3 or more vertices. -/
theorem calculate_area_floor (cs : List Coord) :
    (cs.length < 3 → calculate_area cs = 0) ∧
    (3 ≤ cs.length → 1 ≤ calculate_area cs) := by
  constructor
  · intro h
    unfold calculate_area
    rw [if_pos h]
  · intro h
    unfold calculate_area
    rw [if_neg (by omega)]
    have := le_max_right (|shoelaceSum cs| / 2 / 10000) (1.0 : ℝ)
    linarith

/-- C2 witness: both branches at concrete inputs. -/
theorem calculate_area_floor_witness :
    calculate_area [] = 0 ∧ 1 ≤ calculate_area triCoord :=
  ⟨(calculate_area_floor []).1 (by simp),
   (calculate_area_floor triCoord).2 (by simp [triCoord])⟩

/-- C6 counterexample: on the empty vertex list the risk classifier does
not return a factor — the source divides by `len(coordinates) = 0` and
raises, modelled as `none`.  This refutes "no error conditions for every
vertex list including the empty list". -/
theorem risk_factor_empty_fails : get_location_risk_factor [] = none := by
  unfold get_location_risk_factor
  simp

/-- C6 amended: on every nonempty vertex list the risk classifier is total
and deterministic, returning a factor without failing. -/
theorem risk_factor_total_nonempty (cs : List Coord) (h : cs ≠ []) :
    ∃ r : ℝ, get_location_risk_factor cs = some r :=
  ⟨_, get_location_risk_factor_eq cs h⟩

/-- C6 witness: the amended totality at a concrete nonempty list. -/
theorem risk_factor_total_nonempty_witness :
    ∃ r : ℝ, get_location_risk_factor soloCoord = some r :=
  risk_factor_total_nonempty soloCoord (by simp [soloCoord])

/-- C7: the risk classifier depends only on the centroid (equal mean
latitude and longitude give equal results), always yields one of
0.8, 0.7, 0.6, 0.2, 0.4 — hence lies in [0.2, 0.8] — and a polygon with
centroid (lat = 0, lon = 20) yields 0.7. -/
theorem risk_factor_centroid_only :
    (∀ cs1 cs2 : List Coord, cs1 ≠ [] → cs2 ≠ [] →
      centerLat cs1 = centerLat cs2 → centerLon cs1 = centerLon cs2 →
      get_location_risk_factor cs1 = get_location_risk_factor cs2) ∧
    (∀ cs : List Coord, cs ≠ [] → ∀ r : ℝ,
      get_location_risk_factor cs = some r →
      (r = 0.8 ∨ r = 0.7 ∨ r = 0.6 ∨ r = 0.2 ∨ r = 0.4) ∧
        0.2 ≤ r ∧ r ≤ 0.8) ∧
    get_location_risk_factor [((19 : ℝ), (0 : ℝ)), ((20 : ℝ), (0 : ℝ)),
      ((21 : ℝ), (0 : ℝ))] = some 0.7 := by
  refine ⟨?_, ?_, ?_⟩
  · intro cs1 cs2 h1 h2 hlat hlon
    rw [get_location_risk_factor_eq cs1 h1, get_location_risk_factor_eq cs2 h2,
      hlat, hlon]
  · intro cs h r hr
    rw [get_location_risk_factor_eq cs h] at hr
    have hr' : r = riskFromCenter (centerLat cs) (centerLon cs) :=
      (Option.some_injective _ hr).symm
    subst hr'
    exact ⟨riskFromCenter_cases _ _, riskFromCenter_ge _ _, riskFromCenter_le _ _⟩
  · rw [get_location_risk_factor_eq _ (by simp)]
    have hlat : centerLat [((19 : ℝ), (0 : ℝ)), ((20 : ℝ), (0 : ℝ)),
        ((21 : ℝ), (0 : ℝ))] = 0 := by
      norm_num [centerLat]
    have hlon : centerLon [((19 : ℝ), (0 : ℝ)), ((20 : ℝ), (0 : ℝ)),
        ((21 : ℝ), (0 : ℝ))] = 20 := by
      norm_num [centerLon]
    rw [hlat, hlon]
    unfold riskFromCenter
    rw [if_neg (by norm_num), if_pos (by norm_num)]

/-- C7 witness: permutation invariance and the value set at concrete
lists. -/
theorem risk_factor_centroid_only_witness :
    get_location_risk_factor [((19 : ℝ), (0 : ℝ)), ((21 : ℝ), (0 : ℝ))] =
      get_location_risk_factor [((21 : ℝ), (0 : ℝ)), ((19 : ℝ), (0 : ℝ))] :=
  risk_factor_centroid_only.1 _ _ (by simp) (by simp)
    (by norm_num [centerLat]) (by norm_num [centerLon])

/-- C1: with at least 3 vertices, `analyze_change` never detects
deforestation on any outcome of the draws: the clamped probability is at
most 0.27 < 0.5, so the result has `deforestation_detected = false`,
`forest_loss_area = 0` and `change_percentage = 0`. -/
theorem analyze_change_never_detects (hist curr : Image) (cs : List Coord)
    (d : Draws) (h : 3 ≤ cs.length) :
    ∃ r : ChangeResult, analyze_change hist curr cs d = some r ∧
      r.deforestation_detected = false ∧ r.forest_loss_area = 0 ∧
      r.change_percentage = 0 := by
  have hne : cs ≠ [] := by
    intro he
    rw [he] at h
    simp at h
  exact ⟨_, analyze_change_fields hist curr cs d hne, rfl, rfl, rfl⟩

/-- C1 witness: the never-detects theorem at a concrete triangle and
concrete draws. -/
theorem analyze_change_never_detects_witness :
    ∃ r : ChangeResult, analyze_change img0 img1 triCoord draws0 = some r ∧
      r.deforestation_detected = false ∧ r.forest_loss_area = 0 ∧
      r.change_percentage = 0 :=
  analyze_change_never_detects img0 img1 triCoord draws0 (by simp [triCoord])

/-- C3 counterexample: on a single-vertex list (a coordinate list, as the
claim quantifies) `analyze_change` still produces a result, and its
`area_analyzed` is 0, strictly below the claimed floor of 1.0. -/
theorem analyze_change_area_floor_fails :
    (analyze_change img0 img1 soloCoord draws0).map ChangeResult.area_analyzed
      = some 0 ∧ (0 : ℝ) < 1 := by
  constructor
  · have ha : calculate_area soloCoord = 0 :=
      calculate_area_lt3 _ (by norm_num [soloCoord])
    rw [analyze_change_fields img0 img1 soloCoord draws0 (by simp [soloCoord]),
      Option.map_some']
    simp [ha]
  · norm_num

/-- C3 amended: for coordinate lists with at least 3 vertices, every
result of `analyze_change` has `area_analyzed ≥ 1.0` and its
`change_percentage` lies in [0, 100] and never exceeds 40. -/
theorem analyze_change_invariants (hist curr : Image) (cs : List Coord)
    (d : Draws) (h : 3 ≤ cs.length) :
    ∃ r : ChangeResult, analyze_change hist curr cs d = some r ∧
      1 ≤ r.area_analyzed ∧ 0 ≤ r.change_percentage ∧
      r.change_percentage ≤ 40 ∧ r.change_percentage ≤ 100 := by
  have hne : cs ≠ [] := by
    intro he
    rw [he] at h
    simp at h
  refine ⟨_, analyze_change_fields hist curr cs d hne,
    one_le_calculate_area cs h, ?_, ?_, ?_⟩ <;> norm_num

/-- C3 witness: the amended invariants at a concrete triangle. -/
theorem analyze_change_invariants_witness :
    ∃ r : ChangeResult, analyze_change img0 img1 triCoord draws0 = some r ∧
      1 ≤ r.area_analyzed ∧ 0 ≤ r.change_percentage ∧
      r.change_percentage ≤ 40 ∧ r.change_percentage ≤ 100 :=
  analyze_change_invariants img0 img1 triCoord draws0 (by simp [triCoord])

/-- C5: with at least 3 vertices, the confidence score equals the clamped
probability `min (max (0.3 * (min (area/100) 1 + risk) / 2) 0.1) 0.9` and
therefore lies in [0.1, 0.9]. -/
theorem analyze_change_confidence_clamped (hist curr : Image)
    (cs : List Coord) (d : Draws) (h : 3 ≤ cs.length) :
    ∃ r : ChangeResult, analyze_change hist curr cs d = some r ∧
      r.confidence_score =
        min (max (0.3 * (min (calculate_area cs / 100) 1.0 +
          riskFromCenter (centerLat cs) (centerLon cs)) / 2) 0.1) 0.9 ∧
      0.1 ≤ r.confidence_score ∧ r.confidence_score ≤ 0.9 := by
  have hne : cs ≠ [] := by
    intro he
    rw [he] at h
    simp at h
  refine ⟨_, analyze_change_fields hist curr cs d hne, rfl, ?_, ?_⟩
  · exact le_min (le_max_right _ _) (by norm_num)
  · exact min_le_right _ _

/-- C5 witness: the clamped-confidence theorem at a concrete triangle. -/
theorem analyze_change_confidence_clamped_witness :
    ∃ r : ChangeResult, analyze_change img0 img1 triCoord draws0 = some r ∧
      r.confidence_score =
        min (max (0.3 * (min (calculate_area triCoord / 100) 1.0 +
          riskFromCenter (centerLat triCoord) (centerLon triCoord)) / 2) 0.1)
          0.9 ∧
      0.1 ≤ r.confidence_score ∧ r.confidence_score ≤ 0.9 :=
  analyze_change_confidence_clamped img0 img1 triCoord draws0
    (by simp [triCoord])

/-- The single-vertex list at the origin is classified with the
default "other regions" factor 0.4. -/
lemma risk_solo : get_location_risk_factor soloCoord = some 0.4 := by
  rw [get_location_risk_factor_eq _ (by simp [soloCoord])]
  have hlat : centerLat soloCoord = 0 := by norm_num [centerLat, soloCoord]
  have hlon : centerLon soloCoord = 0 := by norm_num [centerLon, soloCoord]
  rw [hlat, hlon]
  unfold riskFromCenter
  rw [if_neg (by norm_num), if_neg (by norm_num), if_neg (by norm_num),
    if_neg (by norm_num)]

/-- C8: in `full_analysis`, when the location risk factor is at most 0.5
the coin flip is bypassed: `forest_loss_detected` is false for every draw,
and consequently `forest_loss_area = 0` and `change_percentage = 0`. -/
theorem full_analysis_low_risk (cs : List Coord) (d : FullDraws) (rf : ℝ)
    (hrf : get_location_risk_factor cs = some rf) (hle : rf ≤ 0.5) :
    ∃ r : FullReport, full_analysis cs d = some r ∧
      r.forest_loss_detected = false ∧ r.forest_loss_area = 0 ∧
      r.change_percentage = 0 := by
  rw [full_analysis, hrf, Option.map_some']
  have hb : ¬ (rf > 0.5) := not_lt.mpr hle
  refine ⟨_, rfl, ?_, ?_, ?_⟩
  · show (if rf > 0.5 then d.choice else false) = false
    rw [if_neg hb]
  · show (if (if rf > 0.5 then d.choice else false) = true then
        calculate_area cs * d.lossFrac else 0) = 0
    rw [if_neg hb]
    simp
  · show (if calculate_area cs > 0 then
        (if (if rf > 0.5 then d.choice else false) = true then
          calculate_area cs * d.lossFrac else 0) / calculate_area cs * 100
        else 0) = 0
    rw [if_neg hb]
    simp

/-- C8 witness: the low-risk theorem at a concrete list with risk factor
0.4 and the coin flip landing on true. -/
theorem full_analysis_low_risk_witness :
    ∃ r : FullReport, full_analysis soloCoord fullDraws0 = some r ∧
      r.forest_loss_detected = false ∧ r.forest_loss_area = 0 ∧
      r.change_percentage = 0 :=
  full_analysis_low_risk soloCoord fullDraws0 0.4 risk_solo (by norm_num)

/-- C9: the recommendations of `full_analysis` always number at least 3,
and contain the high-frequency satellite-monitoring entry exactly when the
analyzed area exceeds 100 hectares. -/
theorem full_analysis_recommendations (cs : List Coord) (d : FullDraws)
    (rf : ℝ) (hrf : get_location_risk_factor cs = some rf) :
    ∃ r : FullReport, full_analysis cs d = some r ∧
      3 ≤ r.recommendations.length ∧
      (highFreqRec ∈ r.recommendations ↔ 100 < r.area_analyzed) := by
  rw [full_analysis, hrf, Option.map_some']
  have h1 : highFreqRec ∉ lossRecs := by decide
  have h2 : highFreqRec ∉ clearRecs := by decide
  refine ⟨_, rfl, ?_, ?_⟩
  · show 3 ≤ ((if (if rf > 0.5 then d.choice else false) = true then lossRecs
        else clearRecs) ++
        (if calculate_area cs > 100 then [highFreqRec] else [])).length
    rw [List.length_append]
    split_ifs <;> simp [lossRecs, clearRecs]
  · show highFreqRec ∈ (if (if rf > 0.5 then d.choice else false) = true then
        lossRecs else clearRecs) ++
        (if calculate_area cs > 100 then [highFreqRec] else []) ↔
        100 < calculate_area cs
    rw [List.mem_append]
    constructor
    · intro hmem
      rcases hmem with hmem | hmem
      · exfalso
        by_cases hc : (if rf > 0.5 then d.choice else false) = true
        · rw [if_pos hc] at hmem
          exact h1 hmem
        · rw [if_neg hc] at hmem
          exact h2 hmem
      · by_contra hlt
        rw [if_neg hlt] at hmem
        simp at hmem
    · intro hgt
      right
      rw [if_pos hgt]
      simp

/-- C9 witness: the recommendations theorem at a concrete list. -/
theorem full_analysis_recommendations_witness :
    ∃ r : FullReport, full_analysis soloCoord fullDraws0 = some r ∧
      3 ≤ r.recommendations.length ∧
      (highFreqRec ∈ r.recommendations ↔ 100 < r.area_analyzed) :=
  full_analysis_recommendations soloCoord fullDraws0 0.4 risk_solo

/-- C10: the time-span utility parses both arguments as `YYYY-MM-DD`
dates and returns the whole-day difference end − start (in particular 10
for 2023-01-01 to 2023-01-11), and returns the fixed fallback 365 on any
parse failure of either argument instead of propagating an error. -/
theorem calculate_time_span_spec :
    calculate_time_span "2023-01-01" "2023-01-11" = 10 ∧
    (∀ s e : String, ∀ y1 m1 d1 y2 m2 d2 : Nat,
      parseDate s = some (y1, m1, d1) → parseDate e = some (y2, m2, d2) →
      calculate_time_span s e =
        (toOrdinal y2 m2 d2 : ℤ) - (toOrdinal y1 m1 d1 : ℤ)) ∧
    (∀ s e : String, parseDate s = none ∨ parseDate e = none →
      calculate_time_span s e = 365) ∧
    calculate_time_span "bad" "2023-01-01" = 365 := by
  refine ⟨by decide, ?_, ?_, by decide⟩
  · intro s e y1 m1 d1 y2 m2 d2 hs he
    unfold calculate_time_span
    rw [hs, he]
  · intro s e hor
    unfold calculate_time_span
    rcases hor with h | h
    · rw [h]
    · rw [h]
      rcases parseDate s with _ | ⟨ya, ma, da⟩ <;> rfl

/-- C10 witness: the parsed-difference conjunct at concrete dates across
a leap-year February. -/
theorem calculate_time_span_spec_witness :
    calculate_time_span "2024-02-28" "2024-03-01" =
      (toOrdinal 2024 3 1 : ℤ) - (toOrdinal 2024 2 28 : ℤ) :=
  calculate_time_span_spec.2.1 "2024-02-28" "2024-03-01" 2024 2 28 2024 3 1
    (by decide) (by decide)

/-! ### The spec's concrete square (claim C4) -/

/-- The shoelace loop over the square, written out term by term. -/
lemma shoelaceSum_square_unfold :
    shoelaceSum squareCoord =
      0 + shoelaceTerm (degToMeters ((0 : ℝ), (0 : ℝ)))
          (degToMeters ((0 : ℝ), (0.01 : ℝ)))
        + shoelaceTerm (degToMeters ((0 : ℝ), (0.01 : ℝ)))
          (degToMeters ((0.01 : ℝ), (0.01 : ℝ)))
        + shoelaceTerm (degToMeters ((0.01 : ℝ), (0.01 : ℝ)))
          (degToMeters ((0.01 : ℝ), (0 : ℝ)))
        + shoelaceTerm (degToMeters ((0.01 : ℝ), (0 : ℝ)))
          (degToMeters ((0 : ℝ), (0 : ℝ))) := rfl

/-- The shoelace sum of the square in closed form: the only surviving
terms are `1113.2² · cos(0.01°)` and `1113.2²`. -/
lemma shoelaceSum_square :
    shoelaceSum squareCoord =
      1239214.24 * (1 + Real.cos (0.01 * Real.pi / 180)) := by
  rw [shoelaceSum_square_unfold]
  have h0 : ((0 : ℝ)) * Real.pi / 180 = 0 := by ring
  simp only [shoelaceTerm, degToMeters, h0, Real.cos_zero]
  ring

/-- Numeric bound on `π²` used to bound the small cosine argument. -/
lemma pi_sq_lt : Real.pi ^ 2 < 9.9225 := by
  have h := Real.pi_lt_d2
  have h0 := Real.pi_pos
  nlinarith

/-- The cosine of 0.01 degrees is at least 0.999999. -/
lemma cos_001_lower : (0.999999 : ℝ) ≤ Real.cos (0.01 * Real.pi / 180) := by
  have h1 := Real.one_sub_sq_div_two_le_cos (x := 0.01 * Real.pi / 180)
  have h2 : (0.01 * Real.pi / 180) ^ 2 < 0.0000004 := by
    have hsq := pi_sq_lt
    nlinarith [Real.pi_pos]
  linarith

/-- The area of the spec square in closed form. -/
lemma calculate_area_square :
    calculate_area squareCoord =
      1239214.24 * (1 + Real.cos (0.01 * Real.pi / 180)) / 20000 := by
  have hcl := cos_001_lower
  have hcu := Real.cos_le_one (0.01 * Real.pi / 180)
  unfold calculate_area
  rw [if_neg (by norm_num [squareCoord])]
  rw [shoelaceSum_square]
  rw [abs_of_nonneg
    (by nlinarith :
      (0 : ℝ) ≤ 1239214.24 * (1 + Real.cos (0.01 * Real.pi / 180)))]
  rw [max_eq_left
    (by nlinarith :
      (1.0 : ℝ) ≤ 1239214.24 * (1 + Real.cos (0.01 * Real.pi / 180)) / 2
        / 10000)]
  ring

/-- The area of the spec square lies between 123.9 and 124 hectares. -/
lemma calculate_area_square_bounds :
    123.9 ≤ calculate_area squareCoord ∧ calculate_area squareCoord ≤ 124 := by
  rw [calculate_area_square]
  have hcl := cos_001_lower
  have hcu := Real.cos_le_one (0.01 * Real.pi / 180)
  constructor <;> linarith

/-- C4 counterexample: the spec square's area is far outside the claimed
roughly-1-to-1.5-hectare range — it strictly exceeds 1.5 hectares. -/
theorem calculate_area_square_not_small :
    1.5 < calculate_area squareCoord := by
  obtain ⟨h1, _⟩ := calculate_area_square_bounds
  linarith

/-- C4 amended: the square with (lon, lat) vertices (0,0), (0,0.01),
(0.01,0.01), (0.01,0) computes to roughly 123.9 to 124 hectares (a
0.01° × 0.01° cell is about 1.11 km on a side), and in any case at least
1.0. -/
theorem calculate_area_square_range :
    123.9 ≤ calculate_area squareCoord ∧ calculate_area squareCoord ≤ 124 ∧
      1 ≤ calculate_area squareCoord := by
  obtain ⟨h1, h2⟩ := calculate_area_square_bounds
  exact ⟨h1, h2, by linarith⟩

end EUDR
